import Mathlib

/-!
Verification of the license/usage-gating and rate-limiting subsystem of the
aidentalnotes backend (src/backend/auth.py and the endpoint glue in
src/main.py), as a shallow embedding in Lean 4.

Modelling conventions:
* Timestamps (`datetime.utcnow()`, `time.time()`, JWT `exp`) are modelled as
  `Nat` seconds since the epoch.
* The JWT wire format is modelled symbolically: a well-formed signed token is
  `Jwt.signed secret sub email plan exp` where `secret` is the key it was
  signed with; `jwt.decode(token, JWT_SECRET, ...)` succeeds exactly when the
  token is well-formed and was signed with `JWT_SECRET` (the library's
  signature/algorithm verification).  The module's own expiry check
  (auth.py lines 100-106) is embedded explicitly after decoding.
* The SQLAlchemy `licenses` table is a `List License`; `query(...).first()`
  is `List.find?`, and an ORM in-place update plus commit is an update of the
  first matching row.
* The `defaultdict(list)` of the rate limiter is a total function
  `String → List Nat` defaulting to `[]`.
-/

namespace AiDentalNotes

/-- Row of the `licenses` table (auth.py lines 28-41). -/
structure License where
  id : Nat
  user_id : String
  email : String
  plan_type : String
  active : Bool
  notes_limit : Nat
  notes_used : Nat
  created_at : Nat
  expires_at : Nat
  stripe_customer_id : String
  stripe_subscription_id : String
deriving DecidableEq, Repr

/-- The license store: contents of the `licenses` table, in insertion order. -/
abbrev Store := List License

/-- Decoded JWT payload: the dict built in `create_token` (auth.py lines 64-69)
and returned by `verify_token` (line 141). -/
structure Payload where
  sub : String
  email : String
  plan : String
  exp : Nat
deriving DecidableEq, Repr

/-- Symbolic JWT wire form: either a malformed string (bad format, or a
signature that verifies under no key), or a well-formed token signed with
`secret` carrying the claims of `Payload`. -/
inductive Jwt where
  | malformed : Jwt
  | signed (secret : Nat) (sub email plan : String) (exp : Nat) : Jwt
deriving DecidableEq, Repr

/-- Model of `jwt.decode(token, JWT_SECRET, algorithms=[JWT_ALGORITHM])`
(auth.py line 98): signature/format verification under the shared secret.
Returns `none` exactly when the library raises `JWTError`. -/
def jwtDecode (secret : Nat) : Jwt → Option Payload
  | .malformed => none
  | .signed s sub email plan exp =>
    if s = secret then some ⟨sub, email, plan, exp⟩ else none

/-- The `authorization` header as seen by `verify_token`: absent (Python
`None` or the empty string, the `if not token` branch), a credential with the
`"Bearer "` prefix (stripped at auth.py lines 93-94), or a bare credential. -/
inductive AuthHeader where
  | missing : AuthHeader
  | bearer (t : Jwt) : AuthHeader
  | bare (t : Jwt) : AuthHeader
deriving DecidableEq, Repr

/-- Error carried by a raised `fastapi.HTTPException`. -/
structure HTTPError where
  status_code : Nat
  detail : String
deriving DecidableEq, Repr

/-- Update of the first row matching `p` (the ORM mutation of the object
returned by `query(...).first()` followed by `commit()`). -/
def updateFirst (p : License → Bool) (f : License → License) : Store → Store
  | [] => []
  | l :: ls => if p l then f l :: ls else l :: updateFirst p f ls

/-- Model of `create_token` (auth.py lines 51-70): signs the payload dict
with the shared secret; `exp = now + JWT_EXPIRATION_MINUTES * 60`. -/
def create_token (secret expirationMinutes now : Nat)
    (user_id email plan_type : String) : Jwt :=
  .signed secret user_id email plan_type (now + expirationMinutes * 60)

/-- Model of `verify_token` (auth.py lines 72-148).  Returns the decoded
payload (success) or the raised `HTTPException`, paired with the license
store after the call (the only mutation is the usage increment on the
success path, lines 134-136). -/
def verify_token (secret now : Nat) (hdr : AuthHeader) (st : Store) :
    Except HTTPError Payload × Store :=
  match hdr with
  | .missing => (.error ⟨401, "Missing authentication token"⟩, st)
  | .bearer t | .bare t =>
    match jwtDecode secret t with
    | none => (.error ⟨401, "Invalid authentication token"⟩, st)
    | some payload =>
      if payload.exp < now then
        (.error ⟨401, "Token has expired"⟩, st)
      else
        match st.find? (fun l => l.user_id == payload.sub) with
        | none => (.error ⟨401, "Invalid license. Please subscribe."⟩, st)
        | some lic =>
          if !lic.active then
            (.error ⟨403, "Your license is inactive. Please renew your subscription."⟩, st)
          else if lic.notes_limit ≤ lic.notes_used then
            (.error ⟨403, "You have reached your monthly note generation limit. Please upgrade your plan."⟩, st)
          else
            (.ok payload,
             updateFirst (fun l => l.user_id == payload.sub)
               (fun l => { l with notes_used := l.notes_used + 1 }) st)

/-- Billing-cycle length: `timedelta(days=30)` in seconds. -/
def cycle_length : Nat := 30 * 24 * 60 * 60

/-- Autoincrement primary key for a fresh `licenses` row. -/
def freshId (st : Store) : Nat := (st.map (·.id)).foldr max 0 + 1

/-- Field overwrite `create_license` applies to an existing row (auth.py
lines 218-225): plan, limit, Stripe ids replaced, `active` set, `notes_used`
zeroed, expiry rolled one cycle forward; `id`, `user_id`, `email` and
`created_at` are left as they were. -/
def applyUpsert (now : Nat) (plan_type : String) (notes_limit : Nat)
    (stripe_customer_id stripe_subscription_id : String)
    (l : License) : License :=
  { l with
    plan_type := plan_type
    active := true
    notes_limit := notes_limit
    notes_used := 0
    expires_at := now + cycle_length
    stripe_customer_id := stripe_customer_id
    stripe_subscription_id := stripe_subscription_id }

/-- Fresh row inserted by `create_license` (auth.py lines 230-240). -/
def newLicenseRow (now : Nat) (user_id email plan_type : String)
    (notes_limit : Nat) (stripe_customer_id stripe_subscription_id : String)
    (st : Store) : License :=
  { id := freshId st
    user_id := user_id
    email := email
    plan_type := plan_type
    active := true
    notes_limit := notes_limit
    notes_used := 0
    created_at := now
    expires_at := now + cycle_length
    stripe_customer_id := stripe_customer_id
    stripe_subscription_id := stripe_subscription_id }

/-- Model of `create_license` (auth.py lines 191-246): if a row with this
`user_id` exists, overwrite plan/active/limit/used/expiry and the Stripe ids
in place; otherwise insert a fresh row.  Returns the resulting record and
the store after the call. -/
def create_license (now : Nat) (user_id email plan_type : String)
    (notes_limit : Nat) (stripe_customer_id stripe_subscription_id : String)
    (st : Store) : License × Store :=
  match st.find? (fun l => l.user_id == user_id) with
  | some l₀ =>
    (applyUpsert now plan_type notes_limit stripe_customer_id
       stripe_subscription_id l₀,
     updateFirst (fun l => l.user_id == user_id)
       (applyUpsert now plan_type notes_limit stripe_customer_id
          stripe_subscription_id) st)
  | none =>
    (newLicenseRow now user_id email plan_type notes_limit stripe_customer_id
       stripe_subscription_id st,
     st ++ [newLicenseRow now user_id email plan_type notes_limit
        stripe_customer_id stripe_subscription_id st])

/-- Model of `update_license_status` (auth.py lines 248-268): flips `active`
on the first row matching the Stripe subscription id, or returns `none`. -/
def update_license_status (stripe_subscription_id : String) (active : Bool)
    (st : Store) : Option License × Store :=
  match st.find? (fun l => l.stripe_subscription_id == stripe_subscription_id) with
  | none => (none, st)
  | some l₀ =>
    (some { l₀ with active := active },
     updateFirst (fun l => l.stripe_subscription_id == stripe_subscription_id)
       (fun l => { l with active := active }) st)

/-- Filter of the reconciliation query (auth.py lines 282-285):
`License.active == True, License.expires_at < now`. -/
def needsReset (now : Nat) (l : License) : Bool :=
  l.active && decide (l.expires_at < now)

/-- Model of `reset_monthly_usage` (auth.py lines 270-304): for every active
license whose cycle has ended, zero the usage counter and roll the expiry
forward by one cycle; returns the number of licenses reset and the store
after the sweep. -/
def reset_monthly_usage (now : Nat) (st : Store) : Nat × Store :=
  ((st.filter (needsReset now)).length,
   st.map (fun l =>
     if needsReset now l then
       { l with notes_used := 0, expires_at := now + cycle_length }
     else l))

/-- In-memory sliding-window rate limiter (auth.py lines 150-189); the
`defaultdict(list)` is a total map defaulting to `[]`. -/
structure RateLimiter where
  limit : Nat
  window : Nat
  requests : String → List Nat

/-- Model of `RateLimiter.allow_request` (auth.py lines 166-189), with the
wall clock `time.time()` passed explicitly: prune the identifier's
timestamps to the trailing window, then allow and record `now` iff the
pruned count is below the limit. -/
def RateLimiter.allow_request (rl : RateLimiter) (identifier : String)
    (now : Nat) : Bool × RateLimiter :=
  let pruned := (rl.requests identifier).filter (fun t => now - t < rl.window)
  if pruned.length < rl.limit then
    (true, { rl with requests := fun i =>
      if i = identifier then pruned ++ [now] else rl.requests i })
  else
    (false, { rl with requests := fun i =>
      if i = identifier then pruned else rl.requests i })

/-- Rate-limit identifier chosen by the endpoints (main.py lines 95, 132):
`token_data["sub"] or client_ip`; a missing `X-Forwarded-For` header
(Python `None`) is modelled as the empty-string key. -/
def limiterKey (sub : String) (client_ip : Option String) : String :=
  if sub = "" then client_ip.getD "" else sub

/-- Model of the `POST /generate_note` endpoint `generate_note_from_text`
(main.py lines 82-110).  The call to the external language-model service is
abstracted by `vendorOk` (its note text is irrelevant here, so success is
`Unit`).  Note the order taken from the source: `verify_token` runs first
(line 92), the rate limiter second (line 95). -/
def generate_note_from_text (secret now : Nat) (hdr : AuthHeader)
    (client_ip : Option String) (vendorOk : Bool) (st : Store)
    (rl : RateLimiter) : Except HTTPError Unit × Store × RateLimiter :=
  match verify_token secret now hdr st with
  | (.error e, st') => (.error e, st', rl)
  | (.ok token_data, st') =>
    match rl.allow_request (limiterKey token_data.sub client_ip) now with
    | (false, rl') =>
      (.error ⟨429, "Rate limit exceeded. Please try again later."⟩, st', rl')
    | (true, rl') =>
      if vendorOk then (.ok (), st', rl')
      else (.error ⟨500, "Failed to generate note. Please try again later."⟩, st', rl')

/-- Model of the `POST /generate_note_from_audio` endpoint
`generate_note_from_audio` (main.py lines 112-204).  `contentTypeOk`
abstracts the supported-content-type check (lines 139-151) and `vendorOk`
the external transcription and note-generation calls; on vendor failure the
handler's `except Exception` returns 500.  As in the source, `verify_token`
runs first (line 129), the rate limiter second (line 132), and after a
successful generation the handler increments the user's `notes_used` a
second time (lines 187-196), skipping the increment when no license row
matches. -/
def generate_note_from_audio (secret now : Nat) (hdr : AuthHeader)
    (client_ip : Option String) (contentTypeOk vendorOk : Bool) (st : Store)
    (rl : RateLimiter) : Except HTTPError Unit × Store × RateLimiter :=
  match verify_token secret now hdr st with
  | (.error e, st') => (.error e, st', rl)
  | (.ok token_data, st') =>
    match rl.allow_request (limiterKey token_data.sub client_ip) now with
    | (false, rl') =>
      (.error ⟨429, "Rate limit exceeded. Please try again later."⟩, st', rl')
    | (true, rl') =>
      if !contentTypeOk then
        (.error ⟨400, "Invalid file type. Please upload a supported audio file (WAV, MP3, OGG, FLAC, M4A)."⟩, st', rl')
      else if vendorOk then
        (.ok (),
         updateFirst (fun l => l.user_id == token_data.sub)
           (fun l => { l with notes_used := l.notes_used + 1 }) st',
         rl')
      else
        (.error ⟨500, "Failed to process audio and generate note."⟩, st', rl')

/-!
Two-phase model of the gate's usage increment, for the concurrency analysis.
In `verify_token` the quota check and the increment are two separate
database round trips, not one conditional update: line 111 SELECTs the row
into the session, lines 127-135 check and bump the Python-side value, and
`commit()` (line 136) issues `UPDATE ... SET notes_used = <computed value>`.
Under concurrent sessions the SELECTs of two requests can both happen
before either UPDATE.
-/

/-- Read phase of the gate's check-and-increment: the SELECT of auth.py
line 111, returning the session's snapshot of the row. -/
def quotaRead (st : Store) (user_id : String) : Option License :=
  st.find? (fun l => l.user_id == user_id)

/-- Decision taken on the snapshot (auth.py lines 120, 127): the license is
active and under quota. -/
def gateCheck (lic : License) : Bool :=
  lic.active && decide (lic.notes_used < lic.notes_limit)

/-- Write phase: the UPDATE issued by `commit()` (auth.py lines 135-136),
storing the value computed from the session's snapshot. -/
def quotaWrite (st : Store) (user_id : String) (snapshotUsed : Nat) : Store :=
  updateFirst (fun l => l.user_id == user_id)
    (fun l => { l with notes_used := snapshotUsed + 1 }) st

/-- Interleaving of two concurrent gate calls for the same user in which
both SELECTs precede both UPDATEs.  Returns the two decisions and the final
store. -/
def interleavedPair (st : Store) (user_id : String) : Bool × Bool × Store :=
  match quotaRead st user_id, quotaRead st user_id with
  | some l₁, some l₂ =>
    let ok₁ := gateCheck l₁
    let ok₂ := gateCheck l₂
    let st₁ := if ok₁ then quotaWrite st user_id l₁.notes_used else st
    let st₂ := if ok₂ then quotaWrite st₁ user_id l₂.notes_used else st₁
    (ok₁, ok₂, st₂)
  | _, _ => (false, false, st)

/-- Sample license row: active `pro` plan, quota 5, nothing used yet. -/
def sampleLicense : License :=
  { id := 1, user_id := "u1", email := "u1@clinic.test", plan_type := "pro",
    active := true, notes_limit := 5, notes_used := 0, created_at := 0,
    expires_at := 1000000, stripe_customer_id := "cus_1",
    stripe_subscription_id := "sub_1" }

/-- Sample license row with exactly one unit of quota remaining. -/
def licOneLeft : License :=
  { sampleLicense with notes_limit := 1, notes_used := 0 }

/-- Sample license row one unit short of its quota. -/
def licNearLimit : License :=
  { sampleLicense with notes_limit := 5, notes_used := 4 }

/-- Sample license row with `active = false`. -/
def licInactive : License :=
  { sampleLicense with active := false }

/-- Sample license row whose quota is exhausted. -/
def licExhausted : License :=
  { sampleLicense with notes_limit := 5, notes_used := 5 }

/-- Sample active license row whose billing cycle has already ended at
time 100. -/
def licExpired : License :=
  { sampleLicense with notes_used := 3, expires_at := 50 }

/-- Rate limiter in main.py's configuration (limit 10, window 60 seconds)
with an empty history. -/
def rlEmpty : RateLimiter := ⟨10, 60, fun _ => []⟩

/-- Rate limiter in main.py's configuration whose window for `"u1"` is
already full at time 100. -/
def rlFull : RateLimiter :=
  ⟨10, 60, fun i => if i = "u1" then List.replicate 10 100 else []⟩

end AiDentalNotes

namespace AiDentalNotes

/-! Helper lemmas about `updateFirst`. -/

theorem length_updateFirst (p : License → Bool) (f : License → License) :
    ∀ st : Store, (updateFirst p f st).length = st.length
  | [] => rfl
  | l :: ls => by
    by_cases h : p l <;> simp [updateFirst, h, length_updateFirst p f ls]

theorem updateFirst_eq_set (p : License → Bool) (f : License → License) :
    ∀ (st : Store) (lic : License), st.find? p = some lic →
      ∃ j : Fin st.length, st.get j = lic ∧ p lic = true ∧
        updateFirst p f st = st.set j (f lic)
  | [], lic, h => by simp at h
  | l :: ls, lic, h => by
    by_cases hp : p l
    · rw [List.find?_cons_of_pos _ hp] at h
      injection h with h
      subst h
      exact ⟨⟨0, Nat.succ_pos _⟩, rfl, hp, by simp [updateFirst, hp]⟩
    · rw [List.find?_cons_of_neg _ hp] at h
      obtain ⟨j, hget, hplic, hupd⟩ := updateFirst_eq_set p f ls lic h
      exact ⟨j.succ, hget, hplic, by simp [updateFirst, hp, hupd]⟩

theorem countP_updateFirst (p : License → Bool) (f : License → License)
    (hf : ∀ l, p (f l) = p l) :
    ∀ st : Store, (updateFirst p f st).countP p = st.countP p
  | [] => rfl
  | l :: ls => by
    by_cases h : p l <;>
      simp [updateFirst, h, List.countP_cons, hf, countP_updateFirst p f hf ls]

theorem mem_updateFirst_of_unique (p : License → Bool) (f : License → License)
    (hf : ∀ l, p (f l) = p l) :
    ∀ st : Store, st.countP p ≤ 1 →
      ∀ l' ∈ updateFirst p f st, p l' = true →
        ∃ l ∈ st, p l = true ∧ l' = f l
  | [], _, l', hl', _ => absurd hl' (by simp [updateFirst])
  | l :: ls, hc, l', hl', hp' => by
    by_cases hp : p l
    · simp only [updateFirst, if_pos hp, List.mem_cons] at hl'
      rcases hl' with h | h
      · exact ⟨l, List.mem_cons_self l ls, hp, h⟩
      · exfalso
        rw [List.countP_cons_of_pos _ _ hp] at hc
        have hz : ls.countP p = 0 := by omega
        have := List.countP_eq_zero.mp hz l' h
        simp [hp'] at this
    · simp only [updateFirst, if_neg hp, List.mem_cons] at hl'
      rcases hl' with h | h
      · subst h; simp [hp'] at hp
      · rw [List.countP_cons_of_neg _ _ hp] at hc
        obtain ⟨l₀, hmem, hpl₀, heq⟩ :=
          mem_updateFirst_of_unique p f hf ls hc l' h hp'
        exact ⟨l₀, List.mem_cons_of_mem _ hmem, hpl₀, heq⟩

/-- C3: the gate's check-and-increment is not linearizable.  Two concurrent
`verify_token` calls for user `"u1"` holding exactly one unit of quota
(`notes_used = 0`, `notes_limit = 1`), interleaved so that both SELECTs
(auth.py line 111) run before either session's UPDATE (lines 135-136), both
observe `notes_used < notes_limit` and both succeed — contradicting the
claim that at most one of them succeeds — and the final stored counter is 1,
a lost update. -/
theorem gate_race_both_succeed :
    interleavedPair [licOneLeft] "u1" =
      (true, true, [{ licOneLeft with notes_used := 1 }]) := by
  decide

/-- C4: a rate-limited request still consumes quota.  Both note-generation
endpoints call `verify_token` (main.py lines 92, 129) before consulting the
rate limiter (lines 95, 132), so when the limiter's window for `"u1"` is
already full, the endpoint returns the 429 rate-limited error yet the user's
`notes_used` has been incremented from 0 to 1 — contradicting the claim that
a rate-limited request leaves `notes_used` unchanged. -/
theorem rate_limited_request_consumes_quota :
    ((generate_note_from_text 7 100 (.bearer (.signed 7 "u1" "u1@clinic.test" "pro" 1000))
        none true [sampleLicense] rlFull).1 =
      .error ⟨429, "Rate limit exceeded. Please try again later."⟩) ∧
    ((generate_note_from_text 7 100 (.bearer (.signed 7 "u1" "u1@clinic.test" "pro" 1000))
        none true [sampleLicense] rlFull).2.1 =
      [{ sampleLicense with notes_used := 1 }]) ∧
    ((generate_note_from_audio 7 100 (.bearer (.signed 7 "u1" "u1@clinic.test" "pro" 1000))
        none true true [sampleLicense] rlFull).1 =
      .error ⟨429, "Rate limit exceeded. Please try again later."⟩) ∧
    ((generate_note_from_audio 7 100 (.bearer (.signed 7 "u1" "u1@clinic.test" "pro" 1000))
        none true true [sampleLicense] rlFull).2.1 =
      [{ sampleLicense with notes_used := 1 }]) := by
  refine ⟨?_, ?_, ?_, ?_⟩ <;> rfl

/-- C5: the audio endpoint increments `notes_used` twice for one logical
request, and drives the counter past `notes_limit`.  Starting from
`notes_used = 4`, `notes_limit = 5`, one successful
`generate_note_from_audio` request increments once inside `verify_token`
(auth.py line 135) and once after generation (main.py lines 187-196),
leaving `notes_used = 6 > notes_limit = 5` — contradicting both the single
increment point and the `notes_used ≤ notes_limit` invariant. -/
theorem audio_double_increment_breaks_invariant :
    ((generate_note_from_audio 7 100 (.bearer (.signed 7 "u1" "u1@clinic.test" "pro" 1000))
        none true true [licNearLimit] rlEmpty).1 = .ok ()) ∧
    ((generate_note_from_audio 7 100 (.bearer (.signed 7 "u1" "u1@clinic.test" "pro" 1000))
        none true true [licNearLimit] rlEmpty).2.1 =
      [{ licNearLimit with notes_used := 6 }]) ∧
    ((generate_note_from_audio 7 100 (.bearer (.signed 7 "u1" "u1@clinic.test" "pro" 1000))
        none true true [licNearLimit] rlEmpty).2.1.countP
        (fun l => decide (l.notes_limit < l.notes_used)) = 1) := by
  refine ⟨?_, ?_, ?_⟩ <;> rfl

/-- C2: the gate's failure taxonomy and status mapping.  A missing token, a
malformed token, a token signed with the wrong key, an expired token, and a
subject with no license row each fail with status 401, the expired case with
its own reason distinct from the bad-signature reason; an inactive license
fails with status 403 and the inactive-subscription reason; an exhausted
quota fails with status 403 and a distinct quota reason.  In every case the
store is returned unchanged. -/
theorem verify_token_failure_taxonomy (secret now : Nat) (st : Store) :
    (verify_token secret now .missing st =
      (.error ⟨401, "Missing authentication token"⟩, st)) ∧
    (verify_token secret now (.bearer .malformed) st =
      (.error ⟨401, "Invalid authentication token"⟩, st)) ∧
    (∀ s u e p exp, s ≠ secret →
      verify_token secret now (.bearer (.signed s u e p exp)) st =
        (.error ⟨401, "Invalid authentication token"⟩, st)) ∧
    (∀ u e p exp, exp < now →
      verify_token secret now (.bearer (.signed secret u e p exp)) st =
        (.error ⟨401, "Token has expired"⟩, st)) ∧
    ((⟨401, "Token has expired"⟩ : HTTPError) ≠
      (⟨401, "Invalid authentication token"⟩ : HTTPError)) ∧
    (∀ u e p exp, ¬ exp < now →
      st.find? (fun l => l.user_id == u) = none →
      verify_token secret now (.bearer (.signed secret u e p exp)) st =
        (.error ⟨401, "Invalid license. Please subscribe."⟩, st)) ∧
    (∀ u e p exp lic, ¬ exp < now →
      st.find? (fun l => l.user_id == u) = some lic → lic.active = false →
      verify_token secret now (.bearer (.signed secret u e p exp)) st =
        (.error ⟨403, "Your license is inactive. Please renew your subscription."⟩, st)) ∧
    (∀ u e p exp lic, ¬ exp < now →
      st.find? (fun l => l.user_id == u) = some lic → lic.active = true →
      lic.notes_limit ≤ lic.notes_used →
      verify_token secret now (.bearer (.signed secret u e p exp)) st =
        (.error ⟨403, "You have reached your monthly note generation limit. Please upgrade your plan."⟩, st)) ∧
    ((⟨403, "You have reached your monthly note generation limit. Please upgrade your plan."⟩ : HTTPError) ≠
      (⟨403, "Your license is inactive. Please renew your subscription."⟩ : HTTPError)) := by
  refine ⟨rfl, rfl, ?_, ?_, by decide, ?_, ?_, ?_, by decide⟩
  · intro s u e p exp hs
    simp [verify_token, jwtDecode, hs]
  · intro u e p exp hexp
    simp [verify_token, jwtDecode, hexp]
  · intro u e p exp hexp hfind
    simp [verify_token, jwtDecode, hexp, hfind]
  · intro u e p exp lic hexp hfind hact
    simp [verify_token, jwtDecode, hexp, hfind, hact]
  · intro u e p exp lic hexp hfind hact hq
    simp [verify_token, jwtDecode, hexp, hfind, hact, hq]

/-- C2 witness: the taxonomy instantiated at concrete inputs, one per
failure kind with a hypothesis. -/
theorem verify_token_failure_taxonomy_witness :
    (verify_token 7 100 (.bearer (.signed 8 "u1" "a" "p" 1000)) [] =
      (.error ⟨401, "Invalid authentication token"⟩, [])) ∧
    (verify_token 7 100 (.bearer (.signed 7 "u1" "a" "p" 50)) [] =
      (.error ⟨401, "Token has expired"⟩, [])) ∧
    (verify_token 7 100 (.bearer (.signed 7 "zz" "a" "p" 1000)) [sampleLicense] =
      (.error ⟨401, "Invalid license. Please subscribe."⟩, [sampleLicense])) ∧
    (verify_token 7 100 (.bearer (.signed 7 "u1" "a" "p" 1000)) [licInactive] =
      (.error ⟨403, "Your license is inactive. Please renew your subscription."⟩, [licInactive])) ∧
    (verify_token 7 100 (.bearer (.signed 7 "u1" "a" "p" 1000)) [licExhausted] =
      (.error ⟨403, "You have reached your monthly note generation limit. Please upgrade your plan."⟩, [licExhausted])) :=
  ⟨(verify_token_failure_taxonomy 7 100 []).2.2.1 8 "u1" "a" "p" 1000 (by decide),
   (verify_token_failure_taxonomy 7 100 []).2.2.2.1 "u1" "a" "p" 50 (by decide),
   (verify_token_failure_taxonomy 7 100 [sampleLicense]).2.2.2.2.2.1
     "zz" "a" "p" 1000 (by decide) (by decide),
   (verify_token_failure_taxonomy 7 100 [licInactive]).2.2.2.2.2.2.1
     "u1" "a" "p" 1000 licInactive (by decide) (by decide) (by decide),
   (verify_token_failure_taxonomy 7 100 [licExhausted]).2.2.2.2.2.2.2.1
     "u1" "a" "p" 1000 licExhausted (by decide) (by decide) (by decide) (by decide)⟩

/-- C10: every failing gate outcome is a pure read.  Whenever `verify_token`
returns an error — missing token, bad signature or format, expired token, no
license row, inactive license, or exhausted quota — the license store it
returns is exactly the store it was given; the step-7 increment on the
success path is the gate's only mutation. -/
theorem verify_token_errors_pure (secret now : Nat) (hdr : AuthHeader)
    (st : Store) (e : HTTPError)
    (herr : (verify_token secret now hdr st).1 = .error e) :
    (verify_token secret now hdr st).2 = st := by
  cases hdr
  case missing => rfl
  all_goals
    rename_i t
    dsimp only [verify_token] at herr ⊢
  all_goals
    cases hdec : jwtDecode secret t with
    | none => simp [hdec]
    | some payload =>
      simp only [hdec] at herr ⊢
      by_cases hexp : payload.exp < now
      · simp [hexp]
      · simp only [if_neg hexp] at herr ⊢
        cases hfind : st.find? (fun l => l.user_id == payload.sub) with
        | none => simp [hfind]
        | some lic =>
          simp only [hfind] at herr ⊢
          by_cases hact : lic.active
          · by_cases hq : lic.notes_limit ≤ lic.notes_used
            · simp [hact, hq]
            · exfalso
              simp [hact, hq] at herr
          · simp [hact]

/-- C10 witness: a concrete failing call (missing token) returns the store
unchanged. -/
theorem verify_token_errors_pure_witness :
    (verify_token 7 100 AuthHeader.missing [sampleLicense]).2 = [sampleLicense] :=
  verify_token_errors_pure 7 100 .missing [sampleLicense]
    ⟨401, "Missing authentication token"⟩ rfl

/-- C7: the cycle reconciler resets exactly the active licenses whose cycle
has ended.  `reset_monthly_usage` run at `now` returns the number of rows
with `active = true` and `expires_at < now`; the resulting store has the
same length, each such row gets `notes_used = 0` and
`expires_at = now + cycle_length` while every other row is untouched; and a
second run at the same `now` touches 0 rows. -/
theorem reset_monthly_usage_spec (now : Nat) (st : Store) :
    ((reset_monthly_usage now st).1 = st.countP (needsReset now)) ∧
    ((reset_monthly_usage now st).2.length = st.length) ∧
    (∀ (j : Nat) (hj : j < st.length)
        (hj' : j < (reset_monthly_usage now st).2.length),
      (reset_monthly_usage now st).2.get ⟨j, hj'⟩ =
        if needsReset now (st.get ⟨j, hj⟩) then
          { st.get ⟨j, hj⟩ with notes_used := 0, expires_at := now + cycle_length }
        else st.get ⟨j, hj⟩) ∧
    ((reset_monthly_usage now (reset_monthly_usage now st).2).1 = 0) := by
  refine ⟨(List.countP_eq_length_filter _ _).symm, by simp [reset_monthly_usage], ?_, ?_⟩
  · intro j hj hj'
    simp [reset_monthly_usage, List.get_eq_getElem]
  · have hnone : ∀ l ∈ (reset_monthly_usage now st).2, ¬ needsReset now l := by
      intro l hl
      simp only [reset_monthly_usage, List.mem_map] at hl
      obtain ⟨l₀, _, rfl⟩ := hl
      by_cases h : needsReset now l₀
      · intro hcon
        rw [if_pos h] at hcon
        simp only [needsReset, Bool.and_eq_true, decide_eq_true_eq] at hcon
        omega
      · rw [if_neg h]
        exact h
    have : (reset_monthly_usage now (reset_monthly_usage now st).2).1 =
        ((reset_monthly_usage now st).2.filter (needsReset now)).length := rfl
    rw [this, List.filter_eq_nil_iff.mpr hnone]
    rfl

/-- C7 witness: the pointwise description instantiated on a store holding
one active license whose cycle ended at time 50, reconciled at time 100. -/
theorem reset_monthly_usage_spec_witness :
    (reset_monthly_usage 100 [licExpired]).2.get ⟨0, by decide⟩ =
      (if needsReset 100 ([licExpired].get ⟨0, by decide⟩) then
        { [licExpired].get ⟨0, by decide⟩ with
            notes_used := 0, expires_at := 100 + cycle_length }
       else [licExpired].get ⟨0, by decide⟩) :=
  (reset_monthly_usage_spec 100 [licExpired]).2.2.1 0 (by decide) (by decide)

/-- C9: the sliding-window rate limiter.  `allow_request` first prunes the
identifier's stored timestamps to the trailing window, allows and records
`now` exactly when the pruned count is below the limit, denies without
recording otherwise, and leaves every other identifier's window and the
configuration unchanged; with limit 3 and window 60, three calls within one
second all return true, a fourth in the same second returns false, and a
call 61 seconds later returns true again. -/
theorem allow_request_spec (rl : RateLimiter) (identifier other : String)
    (now : Nat) (hne : other ≠ identifier) :
    (((rl.allow_request identifier now).1 = true ↔
        ((rl.requests identifier).filter (fun t => now - t < rl.window)).length < rl.limit) ∧
     ((rl.allow_request identifier now).2.requests identifier =
        if ((rl.requests identifier).filter (fun t => now - t < rl.window)).length < rl.limit
        then ((rl.requests identifier).filter (fun t => now - t < rl.window)) ++ [now]
        else (rl.requests identifier).filter (fun t => now - t < rl.window)) ∧
     ((rl.allow_request identifier now).2.requests other = rl.requests other) ∧
     ((rl.allow_request identifier now).2.limit = rl.limit) ∧
     ((rl.allow_request identifier now).2.window = rl.window)) ∧
    (let rl0 : RateLimiter := ⟨3, 60, fun _ => []⟩
     let c1 := rl0.allow_request "x" 0
     let c2 := c1.2.allow_request "x" 0
     let c3 := c2.2.allow_request "x" 0
     let c4 := c3.2.allow_request "x" 0
     let c5 := c4.2.allow_request "x" 61
     c1.1 = true ∧ c2.1 = true ∧ c3.1 = true ∧ c4.1 = false ∧ c5.1 = true) := by
  constructor
  · by_cases h :
        ((rl.requests identifier).filter (fun t => now - t < rl.window)).length < rl.limit
    · simp [RateLimiter.allow_request, h, hne]
    · simp [RateLimiter.allow_request, h, hne]
  · exact ⟨rfl, rfl, rfl, rfl, rfl⟩

/-- C9 witness: the frame part instantiated concretely — a call for `"u1"`
leaves the window of a different identifier `"v2"` unchanged. -/
theorem allow_request_spec_witness :
    (rlEmpty.allow_request "u1" 100).2.requests "v2" = rlEmpty.requests "v2" :=
  (allow_request_spec rlEmpty "u1" "v2" 100 (by decide)).1.2.2.1

/-- C1: the gate's success path.  Given a well-formed token signed with the
right secret (with or without the Bearer prefix), not expired, whose subject
has a license row that is active and under quota, `verify_token` returns the
decoded claims carrying the token's subject, email, and plan, and the new
store is the old store with exactly one row — a row of that user — changed,
and changed only by incrementing `notes_used` by 1. -/
theorem verify_token_success (secret now : Nat) (u e p : String) (exp : Nat)
    (hdr : AuthHeader) (st : Store) (lic : License)
    (hh : hdr = .bearer (.signed secret u e p exp) ∨
          hdr = .bare (.signed secret u e p exp))
    (hexp : ¬ exp < now)
    (hfind : st.find? (fun l => l.user_id == u) = some lic)
    (hact : lic.active = true)
    (hq : lic.notes_used < lic.notes_limit) :
    ((verify_token secret now hdr st).1 = .ok ⟨u, e, p, exp⟩) ∧
    (∃ j : Fin st.length,
      (st.get j).user_id = u ∧
      (verify_token secret now hdr st).2 =
        st.set j { st.get j with notes_used := (st.get j).notes_used + 1 }) := by
  have hq' : ¬ lic.notes_limit ≤ lic.notes_used := by omega
  have hv : verify_token secret now hdr st =
      (.ok ⟨u, e, p, exp⟩,
       updateFirst (fun l => l.user_id == u)
         (fun l => { l with notes_used := l.notes_used + 1 }) st) := by
    rcases hh with rfl | rfl <;>
      simp [verify_token, jwtDecode, hexp, hfind, hact, hq']
  obtain ⟨j, hget, hplic, hupd⟩ :=
    updateFirst_eq_set (fun l => l.user_id == u)
      (fun l => { l with notes_used := l.notes_used + 1 }) st lic hfind
  refine ⟨by rw [hv], j, ?_, ?_⟩
  · rw [hget]
    exact eq_of_beq hplic
  · rw [hv, hget]
    exact hupd

/-- C1 witness: the success path evaluated on a store holding one active
license with quota available. -/
theorem verify_token_success_witness :
    ((verify_token 7 100 (.bearer (.signed 7 "u1" "u1@clinic.test" "pro" 1000))
        [sampleLicense]).1 = .ok ⟨"u1", "u1@clinic.test", "pro", 1000⟩) ∧
    (∃ j : Fin 1,
      (([sampleLicense] : Store).get j).user_id = "u1" ∧
      (verify_token 7 100 (.bearer (.signed 7 "u1" "u1@clinic.test" "pro" 1000))
          [sampleLicense]).2 =
        ([sampleLicense] : Store).set j
          { ([sampleLicense] : Store).get j with
              notes_used := (([sampleLicense] : Store).get j).notes_used + 1 }) :=
  verify_token_success 7 100 "u1" "u1@clinic.test" "pro" 1000
    (.bearer (.signed 7 "u1" "u1@clinic.test" "pro" 1000)) [sampleLicense]
    sampleLicense (Or.inl rfl) (by decide) (by decide) (by decide) (by decide)

/-- Store produced by `create_license` when a row for the user exists: the
in-place update of the first matching row. -/
theorem create_license_store_of_some (now : Nat) (u e p : String) (n : Nat)
    (sc ss : String) (st : Store) (l₀ : License)
    (hfind : st.find? (fun l => l.user_id == u) = some l₀) :
    (create_license now u e p n sc ss st).2 =
      updateFirst (fun l => l.user_id == u) (applyUpsert now p n sc ss) st := by
  unfold create_license
  rw [hfind]

/-- Store produced by `create_license` when no row for the user exists: the
fresh row is appended. -/
theorem create_license_store_of_none (now : Nat) (u e p : String) (n : Nat)
    (sc ss : String) (st : Store)
    (hfind : st.find? (fun l => l.user_id == u) = none) :
    (create_license now u e p n sc ss st).2 =
      st ++ [newLicenseRow now u e p n sc ss st] := by
  unfold create_license
  rw [hfind]

/-- Count of rows for a given user after `create_license`: exactly one, as
long as the table held at most one before (the unique index on `user_id`). -/
theorem countP_create_license (now : Nat) (u e p : String) (n : Nat)
    (sc ss : String) (st : Store)
    (huniq : st.countP (fun l => l.user_id == u) ≤ 1) :
    (create_license now u e p n sc ss st).2.countP (fun l => l.user_id == u) = 1 := by
  cases hfind : st.find? (fun l => l.user_id == u) with
  | none =>
    have hz : st.countP (fun l => l.user_id == u) = 0 :=
      List.countP_eq_zero.mpr (fun a ha => by
        simpa using List.find?_eq_none.mp hfind a ha)
    rw [create_license_store_of_none now u e p n sc ss st hfind]
    simp [List.countP_append, hz, newLicenseRow]
  | some l₀ =>
    have hmem := List.mem_of_find?_eq_some hfind
    have hpl₀ := List.find?_some hfind
    have hpos : 0 < st.countP (fun l => l.user_id == u) :=
      List.countP_pos_iff.mpr ⟨l₀, hmem, hpl₀⟩
    rw [create_license_store_of_some now u e p n sc ss st l₀ hfind,
      countP_updateFirst (fun l => l.user_id == u) (applyUpsert now p n sc ss)
        (fun l => rfl) st]
    omega

/-- Field values of every row for the given user after `create_license`:
they are the values of that call. -/
theorem create_license_fields (now : Nat) (u e p : String) (n : Nat)
    (sc ss : String) (st : Store)
    (huniq : st.countP (fun l => l.user_id == u) ≤ 1) :
    ∀ l' ∈ (create_license now u e p n sc ss st).2, l'.user_id = u →
      l'.plan_type = p ∧ l'.active = true ∧ l'.notes_limit = n ∧
      l'.notes_used = 0 ∧ l'.expires_at = now + cycle_length ∧
      l'.stripe_customer_id = sc ∧ l'.stripe_subscription_id = ss := by
  intro l' hl' hu
  cases hfind : st.find? (fun l => l.user_id == u) with
  | none =>
    rw [create_license_store_of_none now u e p n sc ss st hfind] at hl'
    simp only [List.mem_append, List.mem_singleton] at hl'
    rcases hl' with h | h
    · exfalso
      have := List.find?_eq_none.mp hfind l' h
      simp [hu] at this
    · subst h
      exact ⟨rfl, rfl, rfl, rfl, rfl, rfl, rfl⟩
  | some l₀ =>
    rw [create_license_store_of_some now u e p n sc ss st l₀ hfind] at hl'
    obtain ⟨l₁, hmem, hp₁, heq⟩ :=
      mem_updateFirst_of_unique (fun l => l.user_id == u)
        (applyUpsert now p n sc ss) (fun l => rfl) st huniq l' hl'
        (by simp [hu])
    subst heq
    exact ⟨rfl, rfl, rfl, rfl, rfl, rfl, rfl⟩

/-- C6: `create_license` is an upsert keyed on `user_id`.  Starting from a
table with at most one row for user `u` (the unique index), one call leaves
exactly one row for `u`, carrying that call's plan, limit and Stripe ids,
with `active = true`, `notes_used = 0` and `expires_at` one cycle ahead; a
second call with different values still leaves exactly one row, now carrying
the second call's values with `notes_used` reset to 0. -/
theorem create_license_upsert (now₁ now₂ : Nat) (u e p₁ p₂ : String)
    (n₁ n₂ : Nat) (sc₁ sc₂ ss₁ ss₂ : String) (st : Store)
    (huniq : st.countP (fun l => l.user_id == u) ≤ 1) :
    ((create_license now₁ u e p₁ n₁ sc₁ ss₁ st).2.countP
        (fun l => l.user_id == u) = 1) ∧
    (∀ l₁ ∈ (create_license now₁ u e p₁ n₁ sc₁ ss₁ st).2, l₁.user_id = u →
      l₁.plan_type = p₁ ∧ l₁.active = true ∧ l₁.notes_limit = n₁ ∧
      l₁.notes_used = 0 ∧ l₁.expires_at = now₁ + cycle_length ∧
      l₁.stripe_customer_id = sc₁ ∧ l₁.stripe_subscription_id = ss₁) ∧
    ((create_license now₂ u e p₂ n₂ sc₂ ss₂
        (create_license now₁ u e p₁ n₁ sc₁ ss₁ st).2).2.countP
        (fun l => l.user_id == u) = 1) ∧
    (∀ l₂ ∈ (create_license now₂ u e p₂ n₂ sc₂ ss₂
        (create_license now₁ u e p₁ n₁ sc₁ ss₁ st).2).2, l₂.user_id = u →
      l₂.plan_type = p₂ ∧ l₂.active = true ∧ l₂.notes_limit = n₂ ∧
      l₂.notes_used = 0 ∧ l₂.expires_at = now₂ + cycle_length ∧
      l₂.stripe_customer_id = sc₂ ∧ l₂.stripe_subscription_id = ss₂) := by
  have h1 := countP_create_license now₁ u e p₁ n₁ sc₁ ss₁ st huniq
  have huniq₂ : (create_license now₁ u e p₁ n₁ sc₁ ss₁ st).2.countP
      (fun l => l.user_id == u) ≤ 1 := by omega
  exact ⟨h1, create_license_fields now₁ u e p₁ n₁ sc₁ ss₁ st huniq,
    countP_create_license now₂ u e p₂ n₂ sc₂ ss₂ _ huniq₂,
    create_license_fields now₂ u e p₂ n₂ sc₂ ss₂ _ huniq₂⟩

/-- C6 witness: two successive upserts for the same user, first on an empty
table (insert) and then with different plan and limit (in-place update). -/
theorem create_license_upsert_witness :
    ((create_license 0 "u1" "u1@clinic.test" "starter" 3 "cus_1" "sub_1" []).2.countP
        (fun l => l.user_id == "u1") = 1) ∧
    (∀ l₁ ∈ (create_license 0 "u1" "u1@clinic.test" "starter" 3 "cus_1" "sub_1" []).2,
      l₁.user_id = "u1" →
      l₁.plan_type = "starter" ∧ l₁.active = true ∧ l₁.notes_limit = 3 ∧
      l₁.notes_used = 0 ∧ l₁.expires_at = 0 + cycle_length ∧
      l₁.stripe_customer_id = "cus_1" ∧ l₁.stripe_subscription_id = "sub_1") ∧
    ((create_license 9 "u1" "u1@clinic.test" "pro" 50 "cus_1" "sub_2"
        (create_license 0 "u1" "u1@clinic.test" "starter" 3 "cus_1" "sub_1" []).2).2.countP
        (fun l => l.user_id == "u1") = 1) ∧
    (∀ l₂ ∈ (create_license 9 "u1" "u1@clinic.test" "pro" 50 "cus_1" "sub_2"
        (create_license 0 "u1" "u1@clinic.test" "starter" 3 "cus_1" "sub_1" []).2).2,
      l₂.user_id = "u1" →
      l₂.plan_type = "pro" ∧ l₂.active = true ∧ l₂.notes_limit = 50 ∧
      l₂.notes_used = 0 ∧ l₂.expires_at = 9 + cycle_length ∧
      l₂.stripe_customer_id = "cus_1" ∧ l₂.stripe_subscription_id = "sub_2") :=
  create_license_upsert 0 9 "u1" "u1@clinic.test" "starter" "pro" 3 50
    "cus_1" "cus_1" "sub_1" "sub_2" [] (by decide)

/-- C8: token round-trip through the codec and the gate.  Verifying a token
produced by `create_token` for user `u`, email `e`, plan `p` at any time up
to its expiry yields the claims `⟨u, e, p, _⟩` (given the subject holds an
active license under quota); verifying the same token after the ttl has
elapsed fails with the dedicated expired-token reason, whatever the store
contains. -/
theorem token_round_trip (secret expMin issuedAt t : Nat) (u e p : String)
    (st : Store) (lic : License)
    (hfind : st.find? (fun l => l.user_id == u) = some lic)
    (hact : lic.active = true)
    (hq : lic.notes_used < lic.notes_limit) :
    ((t ≤ issuedAt + expMin * 60 →
      (verify_token secret t
          (.bearer (create_token secret expMin issuedAt u e p)) st).1 =
        .ok ⟨u, e, p, issuedAt + expMin * 60⟩)) ∧
    (issuedAt + expMin * 60 < t →
      ∀ st' : Store,
        verify_token secret t
            (.bearer (create_token secret expMin issuedAt u e p)) st' =
          (.error ⟨401, "Token has expired"⟩, st')) := by
  constructor
  · intro ht
    have hexp : ¬ issuedAt + expMin * 60 < t := by omega
    have hq' : ¬ lic.notes_limit ≤ lic.notes_used := by omega
    simp [create_token, verify_token, jwtDecode, hexp, hfind, hact, hq']
  · intro ht st'
    simp [create_token, verify_token, jwtDecode, ht]

/-- C8 witness: a token issued at time 0 with a 60-minute ttl verifies at
time 30 and returns its claims; at time 4000 (past the 3600-second ttl) it
fails with the expired-token reason. -/
theorem token_round_trip_witness :
    ((verify_token 7 30 (.bearer (create_token 7 60 0 "u1" "u1@clinic.test" "pro"))
        [sampleLicense]).1 = .ok ⟨"u1", "u1@clinic.test", "pro", 0 + 60 * 60⟩) ∧
    (verify_token 7 4000 (.bearer (create_token 7 60 0 "u1" "u1@clinic.test" "pro"))
        [] = (.error ⟨401, "Token has expired"⟩, [])) :=
  ⟨(token_round_trip 7 60 0 30 "u1" "u1@clinic.test" "pro" [sampleLicense]
      sampleLicense (by decide) (by decide) (by decide)).1 (by omega),
   (token_round_trip 7 60 0 4000 "u1" "u1@clinic.test" "pro" [sampleLicense]
      sampleLicense (by decide) (by decide) (by decide)).2 (by omega) []⟩

end AiDentalNotes
